import Mathlib

/-!
Verification development for the eegtools repository (file eegtools/eeg_dipole.py).

The program is a command line pipeline: it loads one of three input
representations (a continuous recording, pre-segmented epochs, or an averaged
evoked response), optionally detects events and segments the recording,
estimates a noise covariance, builds an inverse operator from an external
forward model, applies it, and writes the results.

This file gives a shallow embedding of the orchestration logic of
eeg_dipole.py.  External library objects (mne Raw, Epochs, Evoked, covariance
matrices, inverse operators, source estimates) are modelled symbolically: each
value records which library call produced it and with which arguments, since
the program never inspects their internals.  Library loads are abstracted into
an environment of functions.  Python specific behaviour that the glue code
itself depends on is modelled faithfully:

* truthiness of optional float arguments (a value of 0.0 is falsy, so it
  behaves like an absent argument in conditions and in the x or y idiom);
* truthiness of optional string arguments (an empty string is falsy);
* truthiness of a numpy event array (a nonempty (n, 3) array has more than
  one element, so bool() raises ValueError; an empty array is falsy);
* attribute access on a name the argument parser never defines
  (args.annotations) raises AttributeError;
* attribute access on None (None.copy()) raises AttributeError;
* reading a local variable that was never assigned (noise_cov) raises
  UnboundLocalError.

Times are modelled as rationals.  Container objects of the library that the
code tests for truthiness (Raw, Epochs) come from successfully loaded files
and are modelled as truthy when present (their Python length is positive for
any loadable file), so presence of the optional value stands for truthiness.
The helpers imported from the missing eegtools.common module (argument
plumbing, output naming) are outside the claims; only the documented defaults
of the argument parser are reflected in the Args record.
-/

namespace EegDipole

/-- Exceptions the orchestration code can raise, by kind and offending name. -/
inductive PyErr where
  | attributeError (attr : String)
  | valueError (msg : String)
  | unboundLocal (name : String)
deriving DecidableEq, Repr

/-- Python truthiness of an optional string argument: None and the empty
string are falsy. -/
def pyStr : Option String → Bool
  | none => false
  | some s => if s = "" then false else true

/-- Python truthiness of an optional float argument: None and 0.0 are falsy. -/
def pyQ : Option ℚ → Bool
  | none => false
  | some q => if q = 0 then false else true

/-- One row of an mne event array: (sample index, previous value, event code). -/
abbrev EventRow := Int × Int × Int

/-- numpy truthiness of an event array.  find_events and
events_from_annotations return (n, 3) integer arrays, so any nonempty result
has at least three elements and bool() raises ValueError; an empty array is
falsy. -/
def npTruthy (a : List EventRow) : Except PyErr Bool :=
  match a with
  | [] => .ok false
  | _ :: _ => .error (.valueError "truth value of an array with more than one element is ambiguous")

/-- A continuous recording (mne Raw).  Only the sampling frequency and the
average reference projection flag matter to the glue code. -/
structure Recording where
  sfreq : ℚ
  eegAvgRefProj : Bool := false
deriving DecidableEq, Repr

/-- Truncation toward zero, as numpy astype(int) does on the result of
Raw.time_as_index: divide the magnitude of the numerator by the denominator
and restore the sign. -/
def truncQ (q : ℚ) : Int :=
  if q.num < 0 then -(Int.ofNat (q.num.natAbs / q.den)) else Int.ofNat (q.num.natAbs / q.den)

/-- Raw.time_as_index: seconds to sample index via the sampling frequency
(source line 95 uses it on the event window offsets). -/
def timeAsIndex (r : Recording) (t : ℚ) : Int :=
  truncQ (t * r.sfreq)

/-- Symbolic mne Epochs value: either loaded from a file (read_epochs) or
built by the segmentation step (mne.Epochs on source line 96, recording the
tmin and tmax values actually passed, which are sample indices). -/
inductive EpochsV where
  | loaded (path : String)
  | built (r : Recording) (events : List EventRow)
      (eventIds : Option (List (String × Int)))
      (tmin tmax : Int) (picks : String)
deriving DecidableEq, Repr

/-- Symbolic mne Evoked value: loaded (read_evokeds) or derived by
epochs.average() on source line 99. -/
inductive EvokedV where
  | loaded (path : String)
  | averaged (e : EpochsV)
deriving DecidableEq, Repr

/-- Symbolic noise recording (source lines 103 to 111): read from the noise
file, copied from the loaded recording, or cropped. -/
inductive NoiseRawV where
  | read (path : String)
  | copied (r : Recording)
  | cropped (base : NoiseRawV) (tmin : ℚ) (tmax : Option ℚ)
deriving DecidableEq, Repr

/-- Symbolic noise covariance (source lines 113 to 116): from a noise
recording (compute_raw_covariance) or from the epochs baseline
(compute_covariance with its tmax argument). -/
inductive NoiseCovV where
  | fromRaw (nr : NoiseRawV) (nJobs : Nat)
  | fromEpochs (e : EpochsV) (tmax : ℚ) (nJobs : Nat)
deriving DecidableEq, Repr

/-- Which of the three representations a stage selected. -/
inductive Rep where
  | raw (r : Recording)
  | epochs (e : EpochsV)
  | evoked (v : EvokedV)
deriving DecidableEq, Repr

/-- Symbolic inverse operator (source line 119): metadata source, forward
solution file and noise covariance. -/
structure InvOpV where
  infoFrom : Rep
  fwdFile : String
  cov : NoiseCovV
deriving DecidableEq, Repr

/-- Symbolic source estimate: which apply routine ran, with which inputs
(source lines 55 to 62 and 124 to 125). -/
inductive StcV where
  | fromEvoked (v : EvokedV) (inv : InvOpV) (l2 : ℚ) (m : String)
      (b e : Option ℚ)
  | fromEpochsA (ep : EpochsV) (inv : InvOpV) (l2 : ℚ) (m : String)
      (b e : Option ℚ)
  | fromRawA (r : Recording) (inv : InvOpV) (l2 : ℚ) (m : String)
      (b e : Option ℚ)
deriving DecidableEq, Repr

/-- The parsed command line arguments of eeg_dipole.py.  Field names follow
the argparse destinations; begin and end get a t prefix because end is a Lean
keyword.  Defaults for type and method are the first entries of INPUT_TYPES
and DSL_METHODS (the use_first_as_default helper of the missing common
module; the spec states the first option is the default). -/
structure Args where
  input : String
  fwdFile : String
  type : String := "raw"
  method : String := "dSPM"
  tBegin : Option ℚ := none
  tEnd : Option ℚ := none
  noiseFile : Option String := none
  noiseBegin : Option ℚ := none
  noiseEnd : Option ℚ := none
  stim : Option String := none
  annotated : Option String := none
  eventBegin : ℚ := -1/5
  eventEnd : ℚ := 1/2
  jobs : Option Nat := none
  gzip : Bool := false
  output : String := "out"
deriving DecidableEq, Repr

/-- Source line 20: the inverse solution methods. -/
def DSL_METHODS : List String := ["dSPM", "MNE", "sLORETA", "eLORETA"]

/-- Source line 24: the declared input type selectors.  Note the third entry
is the string evokeds. -/
def INPUT_TYPES : List String := ["raw", "epochs", "evokeds"]

/-- args.jobs or 1 (source lines 114 and 116): None and 0 fall back to 1. -/
def njobs (args : Args) : Nat :=
  match args.jobs with
  | some n => if n = 0 then 1 else n
  | none => 1

/-- The parser defines the option --annotated, stored as attribute annotated,
but source line 90 reads args.annotations; Python raises AttributeError for
the undefined attribute while evaluating the call arguments. -/
def argsAnnotationsAttr (_ : Args) : Except PyErr String :=
  .error (.attributeError "annotations")

/-- The three optional representations after input resolution
(source line 75). -/
structure LoadState where
  raw : Option Recording := none
  epochs : Option EpochsV := none
  evoked : Option EvokedV := none
deriving DecidableEq, Repr

/-- Abstract library behaviour: what the external readers and event
detectors return for given paths, recordings and channels. -/
structure Env where
  readRawRec : String → Recording
  findEvents : Recording → String → List EventRow
  eventsFromAnnot : Recording → String → List EventRow × List (String × Int)

/-- Source lines 77 to 83: dispatch on args.type.  The raw branch applies the
average EEG reference projection (line 79).  Note the third branch tests the
string evoked, which is not the third entry of INPUT_TYPES (evokeds), so that
selector matches no branch and nothing is loaded. -/
def loadInputs (env : Env) (args : Args) : LoadState :=
  if args.type = "raw" then
    { raw := some { env.readRawRec args.input with eegAvgRefProj := true } }
  else if args.type = "epochs" then
    { epochs := some (.loaded args.input) }
  else if args.type = "evoked" then
    { evoked := some (.loaded args.input) }
  else
    {}

/-- Source lines 85 to 96: event detection and segmentation.  Runs only when
a recording is loaded and no epochs exist.  The annotated branch evaluates
args.annotations first (AttributeError).  The guard on line 94 is the Python
truthiness of the events value: None is falsy, a numpy array goes through
npTruthy.  Line 95 converts the window offsets to sample indices and line 96
passes those indices as the tmin and tmax arguments of mne.Epochs. -/
def detectAndSegment (env : Env) (args : Args) (st : LoadState) :
    Except PyErr LoadState := do
  match st.raw, st.epochs with
  | some r, none =>
    let ev : Option (List EventRow) × Option (List (String × Int)) ←
      if pyStr args.stim then
        pure (some (env.findEvents r (args.stim.getD "")), none)
      else if pyStr args.annotated then do
        let re ← argsAnnotationsAttr args
        pure (some (env.eventsFromAnnot r re).1, some (env.eventsFromAnnot r re).2)
      else
        pure (none, none)
    match ev.1 with
    | none => pure st
    | some evs => do
      let t ← npTruthy evs
      if t then
        pure { st with epochs := some (.built r evs ev.2
          (timeAsIndex r args.eventBegin) (timeAsIndex r args.eventEnd) "data") }
      else
        pure st
  | _, _ => pure st

/-- Source lines 98 to 99: average the epochs when no evoked response was
supplied. -/
def averageStep (st : LoadState) : LoadState :=
  match st.epochs, st.evoked with
  | some e, none => { st with evoked := some (.averaged e) }
  | _, _ => st

/-- Source lines 103 to 111: resolve the noise recording.  With a noise file
the file is read; otherwise a truthy noise bound copies the loaded recording
(None.copy() raises AttributeError when no recording is loaded).  The crop
condition on line 110 parses as (noise_raw and noise_begin) or noise_end; the
crop start is noise_begin or 0. -/
def noiseStep (args : Args) (raw : Option Recording) :
    Except PyErr (Option NoiseRawV) := do
  let nr0 : Option NoiseRawV ←
    if pyStr args.noiseFile then
      pure (some (.read (args.noiseFile.getD "")))
    else if pyQ args.noiseBegin || pyQ args.noiseEnd then
      match raw with
      | some r => pure (some (.copied r))
      | none => .error (.attributeError "copy")
    else
      pure none
  if (nr0.isSome && pyQ args.noiseBegin) || pyQ args.noiseEnd then
    match nr0 with
    | some nr => pure (some (.cropped nr (args.noiseBegin.getD 0) args.noiseEnd))
    | none => .error (.attributeError "crop")
  else
    pure nr0

/-- Source lines 113 to 116: the noise covariance.  A noise recording wins;
otherwise epochs give a baseline covariance with tmax = -0.01; otherwise the
local variable noise_cov is never assigned (modelled as none). -/
def covStep (args : Args) (noiseRaw : Option NoiseRawV)
    (epochs : Option EpochsV) : Option NoiseCovV :=
  match noiseRaw with
  | some nr => some (.fromRaw nr (njobs args))
  | none =>
    match epochs with
    | some e => some (.fromEpochs e (-1/100) (njobs args))
    | none => none

/-- The run prefix through covariance resolution: input loading, event
detection and segmentation, averaging, noise recording and covariance
(source lines 75 to 116). -/
def covPhase (env : Env) (args : Args) :
    Except PyErr (LoadState × Option NoiseRawV × Option NoiseCovV) := do
  let st0 := loadInputs env args
  let st1 ← detectAndSegment env args st0
  let st := averageStep st1
  let nr ← noiseStep args st.raw
  pure (st, nr, covStep args nr st.epochs)

/-- Source lines 118 and 123: the expression raw or epochs or evoked, which
selects the first present representation in that order. -/
def primaryRep (st : LoadState) : Option Rep :=
  match st.raw with
  | some r => some (.raw r)
  | none =>
    match st.epochs with
    | some e => some (.epochs e)
    | none =>
      match st.evoked with
      | some v => some (.evoked v)
      | none => none

/-- Source lines 55 to 62: dispatch of the inverse application, testing
evoked first, then epochs, then raw; falls through to None when all three
are absent. -/
def apply_inverse_operator (inv : InvOpV) (raw : Option Recording)
    (epochs : Option EpochsV) (evoked : Option EvokedV)
    (l2 : ℚ) (m : String) (b e : Option ℚ) : Option StcV :=
  match evoked with
  | some v => some (.fromEvoked v inv l2 m b e)
  | none =>
    match epochs with
    | some ep => some (.fromEpochsA ep inv l2 m b e)
    | none =>
      match raw with
      | some r => some (.fromRawA r inv l2 m b e)
      | none => none

/-- Source line 121: snr is 3 when epochs or evoked is truthy, else 1. -/
def snrOf (epochs : Option EpochsV) (evoked : Option EvokedV) : ℚ :=
  if epochs.isSome || evoked.isSome then 3 else 1

/-- Source line 122: lambda2 = 1 / snr ** 2. -/
def lambda2Of (epochs : Option EpochsV) (evoked : Option EvokedV) : ℚ :=
  1 / (snrOf epochs evoked) ^ 2

/-- The artifacts of a completed run: the final representations, noise
objects, inverse operator, regularization, the representation whose time base
converted the analysis window (line 123), and the source estimate. -/
structure RunOut where
  state : LoadState
  noiseRaw : Option NoiseRawV
  noiseCov : NoiseCovV
  invOp : InvOpV
  lambda2 : ℚ
  timeBase : Rep
  stc : StcV
deriving DecidableEq, Repr

/-- Source lines 118 to 125: metadata selection (None.info raises
AttributeError when all representations are absent), the read of the
possibly unassigned noise_cov local (UnboundLocalError), inverse operator
construction, regularization, time window conversion via the raw or epochs
or evoked selection, and the inverse application dispatch. -/
def solveStage (args : Args) (st : LoadState) (nr : Option NoiseRawV)
    (nc : Option NoiseCovV) : Except PyErr RunOut := do
  let primary ← match primaryRep st with
    | some p => pure p
    | none => .error (.attributeError "info")
  let cov ← match nc with
    | some c => pure c
    | none => .error (.unboundLocal "noise_cov")
  let inv : InvOpV := ⟨primary, args.fwdFile, cov⟩
  let l2 := lambda2Of st.epochs st.evoked
  let stc ← match apply_inverse_operator inv st.raw st.epochs st.evoked l2
      args.method args.tBegin args.tEnd with
    | some s => pure s
    | none => .error (.attributeError "save")
  pure ⟨st, nr, cov, inv, l2, primary, stc⟩

/-- The whole pipeline of main (source lines 75 to 125); the output writes of
lines 127 to 131 delegate to naming helpers of the missing common module and
carry no further logic. -/
def runMain (env : Env) (args : Args) : Except PyErr RunOut := do
  let (st, nr, nc) ← covPhase env args
  solveStage args st nr nc

/-- Whether a noise recording value was cropped. -/
def isCropped : NoiseRawV → Bool
  | .cropped _ _ _ => true
  | _ => false

/-- The kind of a selected representation, for stating priority facts. -/
def repKind : Rep → String
  | .raw _ => "raw"
  | .epochs _ => "epochs"
  | .evoked _ => "evoked"

/-- Which representation the inverse application consumed. -/
def appliedTo : StcV → String
  | .fromEvoked _ _ _ _ _ _ => "evoked"
  | .fromEpochsA _ _ _ _ _ _ => "epochs"
  | .fromRawA _ _ _ _ _ _ => "raw"

/-- A concrete environment for witnesses: one kilohertz recordings and a
trigger channel carrying two events. -/
def env0 : Env where
  readRawRec := fun _ => { sfreq := 1000 }
  findEvents := fun _ _ => [(100, 0, 1), (300, 0, 2)]
  eventsFromAnnot := fun _ _ => ([(100, 0, 1)], [("ev", 1)])

/-- A variant environment whose trigger channel carries a single event. -/
def env1 : Env where
  readRawRec := fun _ => { sfreq := 1000 }
  findEvents := fun _ _ => [(100, 0, 1)]
  eventsFromAnnot := fun _ _ => ([(100, 0, 1)], [("ev", 1)])

/-- Concrete arguments: annotation mode on a raw input. -/
def argsC2 : Args :=
  { input := "in2.fif", fwdFile := "fwd2", type := "raw", annotated := some "ev.*" }

/-- Concrete arguments: trigger channel mode on a raw input. -/
def argsC3 : Args :=
  { input := "in3.fif", fwdFile := "fwd3", type := "raw", stim := some "STI 014" }

/-- Concrete arguments: noise file given together with a zero end bound. -/
def argsC4 : Args :=
  { input := "e4.fif", fwdFile := "fwd4", type := "epochs",
    noiseFile := some "empty.fif", noiseEnd := some 0 }

/-- Concrete arguments: noise file given with a nonzero begin bound. -/
def argsC4w : Args :=
  { input := "e4w.fif", fwdFile := "fwd4w", type := "epochs",
    noiseFile := some "n4w.fif", noiseBegin := some 2 }

/-- Concrete arguments: epochs input with a separate noise file. -/
def argsC5 : Args :=
  { input := "e5.fif", fwdFile := "fwd5", type := "epochs", noiseFile := some "n5.fif" }

/-- The run artifacts produced by argsC5 under env0. -/
def outC5 : RunOut :=
  { state := { raw := none, epochs := some (.loaded "e5.fif"),
               evoked := some (.averaged (.loaded "e5.fif")) }
    noiseRaw := some (.read "n5.fif")
    noiseCov := .fromRaw (.read "n5.fif") 1
    invOp := { infoFrom := .epochs (.loaded "e5.fif"), fwdFile := "fwd5",
               cov := .fromRaw (.read "n5.fif") 1 }
    lambda2 := 1/9
    timeBase := .epochs (.loaded "e5.fif")
    stc := .fromEvoked (.averaged (.loaded "e5.fif"))
      { infoFrom := .epochs (.loaded "e5.fif"), fwdFile := "fwd5",
        cov := .fromRaw (.read "n5.fif") 1 } (1/9) "dSPM" none none }

/-- Concrete arguments: epochs input, no noise file, no noise bounds. -/
def argsC6 : Args :=
  { input := "e6.fif", fwdFile := "fwd6", type := "epochs" }

/-- Concrete arguments: raw input without stim, annotations or noise options. -/
def argsC7 : Args :=
  { input := "r7.fif", fwdFile := "fwd7", type := "raw" }

/-- Concrete arguments: epochs input with a noise file, for the priority
counterexample. -/
def argsC8 : Args :=
  { input := "e8.fif", fwdFile := "fwd8", type := "epochs", noiseFile := some "n8.fif" }

/-- The run artifacts produced by argsC8 under env0. -/
def outC8 : RunOut :=
  { state := { raw := none, epochs := some (.loaded "e8.fif"),
               evoked := some (.averaged (.loaded "e8.fif")) }
    noiseRaw := some (.read "n8.fif")
    noiseCov := .fromRaw (.read "n8.fif") 1
    invOp := { infoFrom := .epochs (.loaded "e8.fif"), fwdFile := "fwd8",
               cov := .fromRaw (.read "n8.fif") 1 }
    lambda2 := 1/9
    timeBase := .epochs (.loaded "e8.fif")
    stc := .fromEvoked (.averaged (.loaded "e8.fif"))
      { infoFrom := .epochs (.loaded "e8.fif"), fwdFile := "fwd8",
        cov := .fromRaw (.read "n8.fif") 1 } (1/9) "dSPM" none none }

/-- A concrete inverse operator for the priority witness. -/
def invC8 : InvOpV :=
  { infoFrom := .epochs (.loaded "x8.fif"), fwdFile := "fwd8",
    cov := .fromRaw (.read "n8.fif") 1 }

/-- A concrete pipeline state with epochs and an evoked response present,
for the priority witness. -/
def stC8w : LoadState :=
  { raw := none, epochs := some (.loaded "x8.fif"),
    evoked := some (.averaged (.loaded "x8.fif")) }

/-- Concrete arguments: trigger channel mode with two detected events. -/
def argsC9 : Args :=
  { input := "in9.fif", fwdFile := "fwd9", type := "raw", stim := some "STI 014" }

/-- Concrete arguments: a zero noise begin bound without a noise file on an
epochs input. -/
def argsC10 : Args :=
  { input := "e10.fif", fwdFile := "fwd10", type := "epochs", noiseBegin := some 0 }

/-- Concrete arguments: a nonzero noise end bound without a noise file on an
epochs input. -/
def argsC10w : Args :=
  { input := "e10w.fif", fwdFile := "fwd10w", type := "epochs", noiseEnd := some 2 }

/-- Claim C1: the selectors raw and epochs invoke exactly the matching loader
and leave the other two representations unset, but the third declared
selector evokeds matches no branch of the dispatch (which tests the string
evoked), so it invokes no loader and leaves all three representations
unset. -/
theorem c1_evokeds_selector_loads_nothing :
    INPUT_TYPES = ["raw", "epochs", "evokeds"] ∧
    loadInputs env0 { input := "in1.fif", fwdFile := "fwd1", type := "raw" } =
      { raw := some { sfreq := 1000, eegAvgRefProj := true }, epochs := none,
        evoked := none } ∧
    loadInputs env0 { input := "in1.fif", fwdFile := "fwd1", type := "epochs" } =
      { raw := none, epochs := some (.loaded "in1.fif"), evoked := none } ∧
    loadInputs env0 { input := "in1.fif", fwdFile := "fwd1", type := "evokeds" } =
      { raw := none, epochs := none, evoked := none } :=
  ⟨rfl, rfl, rfl, rfl⟩

/-- Claim C2: in annotation mode (raw input, annotated given, stim absent)
the run raises AttributeError while reading the undefined attribute
args.annotations (source line 90), so no events, no mapping and no epochs
are ever produced. -/
theorem c2_annotated_mode_attribute_error :
    runMain env0 argsC2 = .error (.attributeError "annotations") := rfl

/-- Claim C3: when events are detected from a loaded recording, the guard on
source line 94 evaluates the truthiness of a nonempty event array and raises
ValueError, so segmentation never builds epochs; moreover line 95 converts
the default window offsets to sample indices (at 1 kHz, -0.2 s and 0.5 s
become -200 and 500), and line 96 passes those indices as the tmin and tmax
arguments of mne.Epochs, which expect seconds. -/
theorem c3_event_segmentation_raises :
    runMain env1 argsC3 =
      .error (.valueError
        "truth value of an array with more than one element is ambiguous") ∧
    timeAsIndex { sfreq := 1000 } (-1/5) = -200 ∧
    timeAsIndex { sfreq := 1000 } (1/2) = 500 := by
  refine ⟨rfl, ?_, ?_⟩ <;> norm_num [timeAsIndex, truncQ]

/-- Claim C4 counterexample: with a noise file given and a noise end bound
present but equal to 0, the run does not crop the noise recording (the value
stays a plain read, not a crop), because a float value of 0.0 is falsy in
the crop condition of source line 110; the claim asserts cropping whenever a
bound is present. -/
theorem c4_zero_end_bound_not_cropped :
    argsC4.noiseEnd.isSome = true ∧
    covPhase env0 argsC4 =
      .ok ({ raw := none, epochs := some (.loaded "e4.fif"),
             evoked := some (.averaged (.loaded "e4.fif")) },
           some (.read "empty.fif"), some (.fromRaw (.read "empty.fif") 1)) ∧
    isCropped (.read "empty.fif") = false :=
  ⟨rfl, rfl, rfl⟩

/-- Claim C8 counterexample: a run with an epochs input and a noise file
reaches the solve stage with both epochs and an evoked response present; the
metadata selection and the time window conversion (source lines 118 and 123)
pick the epochs, not the evoked response, while the inverse application
(lines 55 to 62) picks the evoked response, so no fixed priority order
evoked over epochs over raw governs all three stages. -/
theorem c8_priority_claim_false :
    runMain env0 argsC8 = .ok outC8 ∧
    outC8.state.evoked.isSome = true ∧
    repKind outC8.invOp.infoFrom = "epochs" ∧
    repKind outC8.timeBase = "epochs" ∧
    appliedTo outC8.stc = "evoked" :=
  ⟨rfl, rfl, rfl, rfl, rfl⟩

/-- Claim C10 counterexample: a noise begin bound that is present but equal
to 0 is falsy, so with an epochs input and no noise file the run does not
attempt to copy the absent recording and raises nothing; the noise
covariance is computed from the epochs baseline. -/
theorem c10_zero_bound_no_copy_error :
    argsC10.noiseBegin.isSome = true ∧
    argsC10.noiseFile = none ∧
    argsC10.type = "epochs" ∧
    covPhase env0 argsC10 =
      .ok ({ raw := none, epochs := some (.loaded "e10.fif"),
             evoked := some (.averaged (.loaded "e10.fif")) },
           none, some (.fromEpochs (.loaded "e10.fif") (-1/100) 1)) :=
  ⟨rfl, rfl, rfl, rfl⟩

/-- Claim C6: with input type epochs, no noise file and unset noise bounds,
the run resolves no noise recording and computes the noise covariance from
the epochs with the baseline window ending at tmax = -0.01 seconds. -/
theorem c6_epochs_baseline_covariance (env : Env) (args : Args)
    (ht : args.type = "epochs") (hf : args.noiseFile = none)
    (hb : args.noiseBegin = none) (he : args.noiseEnd = none) :
    covPhase env args =
      .ok ({ raw := none, epochs := some (.loaded args.input),
             evoked := some (.averaged (.loaded args.input)) },
           none, some (.fromEpochs (.loaded args.input) (-1/100) (njobs args))) := by
  obtain ⟨i, f, t, m, tb, te, nf, nb, ne, stm, ann, eb, ee, j, g, o⟩ := args
  subst ht hf hb he
  rfl

/-- Witness for c6_epochs_baseline_covariance at a concrete input. -/
theorem c6_witness :
    covPhase env0 argsC6 =
      .ok ({ raw := none, epochs := some (.loaded argsC6.input),
             evoked := some (.averaged (.loaded argsC6.input)) },
           none, some (.fromEpochs (.loaded argsC6.input) (-1/100) (njobs argsC6))) :=
  c6_epochs_baseline_covariance env0 argsC6 rfl rfl rfl rfl

/-- Claim C7: with input type raw and neither stim nor annotated given, and
no noise file or noise bounds, the run produces no epochs and no evoked
response, the covariance phase succeeds with no noise covariance bound, and
the pipeline then fails at the operator construction stage with the read of
the unassigned local noise_cov, not during event segmentation. -/
theorem c7_raw_without_events_unbound_noise_cov (env : Env) (args : Args)
    (ht : args.type = "raw") (hs : args.stim = none) (ha : args.annotated = none)
    (hf : args.noiseFile = none) (hb : args.noiseBegin = none)
    (he : args.noiseEnd = none) :
    covPhase env args =
      .ok ({ raw := some { env.readRawRec args.input with eegAvgRefProj := true },
             epochs := none, evoked := none }, none, none) ∧
    runMain env args = .error (.unboundLocal "noise_cov") := by
  obtain ⟨i, f, t, m, tb, te, nf, nb, ne, stm, ann, eb, ee, j, g, o⟩ := args
  subst ht hs ha hf hb he
  exact ⟨rfl, rfl⟩

/-- Witness for c7_raw_without_events_unbound_noise_cov at a concrete
input. -/
theorem c7_witness :
    covPhase env0 argsC7 =
      .ok ({ raw := some { env0.readRawRec argsC7.input with eegAvgRefProj := true },
             epochs := none, evoked := none }, none, none) ∧
    runMain env0 argsC7 = .error (.unboundLocal "noise_cov") :=
  c7_raw_without_events_unbound_noise_cov env0 argsC7 rfl rfl rfl rfl rfl rfl

/-- Claim C4 amended: with a noise file given, the noise covariance is always
computed from that file by compute_raw_covariance (never from epoch
baselines), and the noise recording is cropped if and only if at least one of
the bounds is present with a nonzero value (a bound equal to 0 is falsy and
acts as absent); when cropped, the crop start is the begin bound or 0. -/
theorem c4_noise_file_covariance_and_crop (args : Args) (raw : Option Recording)
    (ep : Option EpochsV) (hf : pyStr args.noiseFile = true) :
    ∃ nr, noiseStep args raw = .ok (some nr) ∧
      covStep args (some nr) ep = some (.fromRaw nr (njobs args)) ∧
      isCropped nr = (pyQ args.noiseBegin || pyQ args.noiseEnd) ∧
      (isCropped nr = true →
        nr = .cropped (.read (args.noiseFile.getD "")) (args.noiseBegin.getD 0)
          args.noiseEnd) ∧
      (isCropped nr = false → nr = .read (args.noiseFile.getD "")) := by
  cases hc : pyQ args.noiseBegin || pyQ args.noiseEnd with
  | false =>
    refine ⟨.read (args.noiseFile.getD ""), ?_, rfl, rfl, ?_, fun _ => rfl⟩
    · simp only [noiseStep, hf, hc, Option.isSome_some, Bool.true_and, Bool.false_eq_true,
        Bind.bind, Except.bind, pure, Except.pure, if_true, if_false, reduceIte]
    · intro hx; exact absurd hx (by simp [isCropped])
  | true =>
    refine ⟨.cropped (.read (args.noiseFile.getD "")) (args.noiseBegin.getD 0) args.noiseEnd,
      ?_, rfl, rfl, fun _ => rfl, ?_⟩
    · simp only [noiseStep, hf, hc, Option.isSome_some, Bool.true_and, Bool.false_eq_true,
        Bind.bind, Except.bind, pure, Except.pure, if_true, if_false, reduceIte]
    · intro hx; exact absurd hx (by simp [isCropped])

/-- Witness for c4_noise_file_covariance_and_crop: a noise file with a
nonzero begin bound. -/
theorem c4_witness :
    pyStr argsC4w.noiseFile = true ∧
    (∃ nr, noiseStep argsC4w none = .ok (some nr) ∧
      covStep argsC4w (some nr) none = some (.fromRaw nr (njobs argsC4w)) ∧
      isCropped nr = (pyQ argsC4w.noiseBegin || pyQ argsC4w.noiseEnd) ∧
      (isCropped nr = true →
        nr = .cropped (.read (argsC4w.noiseFile.getD "")) (argsC4w.noiseBegin.getD 0)
          argsC4w.noiseEnd) ∧
      (isCropped nr = false → nr = .read (argsC4w.noiseFile.getD ""))) :=
  ⟨rfl, c4_noise_file_covariance_and_crop argsC4w none none rfl⟩

/-- Claim C5: whenever the solve stage completes, the regularization is
lambda2 = 1/9 (snr 3) if epochs or an evoked response is present, and
lambda2 = 1 (snr 1) if neither is, so in particular when only the raw
recording is active. -/
theorem c5_lambda2_by_representation (args : Args) (st : LoadState)
    (nr : Option NoiseRawV) (nc : Option NoiseCovV) (out : RunOut)
    (h : solveStage args st nr nc = .ok out) :
    ((st.epochs.isSome || st.evoked.isSome) = true →
      snrOf st.epochs st.evoked = 3 ∧ out.lambda2 = 1/9) ∧
    (st.epochs = none → st.evoked = none →
      snrOf st.epochs st.evoked = 1 ∧ out.lambda2 = 1) := by
  have key : out.lambda2 = lambda2Of st.epochs st.evoked := by
    unfold solveStage at h
    rcases hp : primaryRep st with _ | p <;> rw [hp] at h
    · simp [Bind.bind, Except.bind] at h
    · rcases nc with _ | c
      · simp [Bind.bind, Except.bind, pure, Except.pure] at h
      · simp only [Bind.bind, Except.bind, pure, Except.pure] at h
        rcases ha : apply_inverse_operator ⟨p, args.fwdFile, c⟩ st.raw st.epochs st.evoked
            (lambda2Of st.epochs st.evoked) args.method args.tBegin args.tEnd with _ | s <;>
          rw [ha] at h
        · simp at h
        · have hx := Except.ok.inj h
          subst hx
          rfl
  refine ⟨?_, ?_⟩
  · intro hse
    constructor
    · simp [snrOf, hse]
    · rw [key]; simp [lambda2Of, snrOf, hse]; norm_num
  · intro he hv
    constructor
    · simp [snrOf, he, hv]
    · rw [key]; simp [lambda2Of, snrOf, he, hv]

/-- Witness for c5_lambda2_by_representation: the run of argsC5 reaches the
solve stage with epochs and an evoked response present and gets
lambda2 = 1/9. -/
theorem c5_witness :
    (outC5.state.epochs.isSome || outC5.state.evoked.isSome) = true ∧
    snrOf outC5.state.epochs outC5.state.evoked = 3 ∧ outC5.lambda2 = 1/9 :=
  ⟨rfl, (c5_lambda2_by_representation argsC5 outC5.state outC5.noiseRaw
    (some (.fromRaw (.read "n5.fif") 1)) outC5 rfl).1 rfl⟩

/-- Claim C8 amended: at each stage exactly one representation is selected,
namely the first present one in the order of that stage, and none only when
all three are absent; but the orders differ: metadata selection and time
window conversion (the raw or epochs or evoked expression of source lines
118 and 123) follow raw over epochs over evoked, while the inverse
application dispatch (source lines 55 to 62) follows evoked over epochs over
raw. -/
theorem c8_stage_priorities (st : LoadState) (inv : InvOpV) (l2 : ℚ) (m : String)
    (b0 e0 : Option ℚ) :
    (∀ r, st.raw = some r → primaryRep st = some (.raw r)) ∧
    (∀ ep, st.raw = none → st.epochs = some ep → primaryRep st = some (.epochs ep)) ∧
    (∀ v, st.raw = none → st.epochs = none → st.evoked = some v →
      primaryRep st = some (.evoked v)) ∧
    (primaryRep st = none ↔ st.raw = none ∧ st.epochs = none ∧ st.evoked = none) ∧
    (∀ v, st.evoked = some v →
      apply_inverse_operator inv st.raw st.epochs st.evoked l2 m b0 e0 =
        some (.fromEvoked v inv l2 m b0 e0)) ∧
    (∀ ep, st.evoked = none → st.epochs = some ep →
      apply_inverse_operator inv st.raw st.epochs st.evoked l2 m b0 e0 =
        some (.fromEpochsA ep inv l2 m b0 e0)) ∧
    (∀ r, st.evoked = none → st.epochs = none → st.raw = some r →
      apply_inverse_operator inv st.raw st.epochs st.evoked l2 m b0 e0 =
        some (.fromRawA r inv l2 m b0 e0)) := by
  obtain ⟨or, oe, ov⟩ := st
  cases or <;> cases oe <;> cases ov <;>
    simp [primaryRep, apply_inverse_operator]

/-- Witness for c8_stage_priorities: with epochs and an evoked response both
present and no raw recording, the metadata selection picks the epochs while
the inverse application picks the evoked response. -/
theorem c8_witness :
    primaryRep stC8w = some (.epochs (.loaded "x8.fif")) ∧
    apply_inverse_operator invC8 stC8w.raw stC8w.epochs stC8w.evoked 1 "dSPM" none none =
      some (.fromEvoked (.averaged (.loaded "x8.fif")) invC8 1 "dSPM" none none) :=
  ⟨(c8_stage_priorities stC8w invC8 1 "dSPM" none none).2.1
      (.loaded "x8.fif") rfl rfl,
   (c8_stage_priorities stC8w invC8 1 "dSPM" none none).2.2.2.2.1
      (.averaged (.loaded "x8.fif")) rfl⟩

/-- Claim C9: in trigger channel mode on a raw input, when the detected
event array has at least two rows, the truthiness guard of source line 94
raises ValueError, so epochs are never built from such a recording. -/
theorem c9_multi_event_guard_raises (env : Env) (args : Args)
    (ht : args.type = "raw") (hs : pyStr args.stim = true)
    (hn : 2 ≤ (env.findEvents { env.readRawRec args.input with eegAvgRefProj := true }
      (args.stim.getD "")).length) :
    runMain env args =
      .error (.valueError
        "truth value of an array with more than one element is ambiguous") := by
  rcases hevs : env.findEvents { env.readRawRec args.input with eegAvgRefProj := true }
      (args.stim.getD "") with _ | ⟨a, l⟩
  · rw [hevs] at hn; simp at hn
  · simp only [runMain, covPhase, loadInputs, ht, if_pos, detectAndSegment, hs, hevs,
      npTruthy, averageStep, noiseStep, covStep, Bind.bind, Except.bind, pure, Except.pure,
      if_true, reduceIte]

/-- Witness for c9_multi_event_guard_raises: env0 detects two trigger
events. -/
theorem c9_witness :
    pyStr argsC9.stim = true ∧
    2 ≤ (env0.findEvents { env0.readRawRec argsC9.input with eegAvgRefProj := true }
      (argsC9.stim.getD "")).length ∧
    runMain env0 argsC9 =
      .error (.valueError
        "truth value of an array with more than one element is ambiguous") :=
  ⟨rfl, by decide, c9_multi_event_guard_raises env0 argsC9 rfl rfl (by decide)⟩

/-- Claim C10 amended: when a noise bound is given with a nonzero value, no
noise file is given and the input type is not raw (so no recording is
loaded), the run raises AttributeError at the raw.copy() call of source line
106, before any noise covariance is computed. -/
theorem c10_copy_none_raises (env : Env) (args : Args)
    (ht : ¬ args.type = "raw") (hf : pyStr args.noiseFile = false)
    (hbe : (pyQ args.noiseBegin || pyQ args.noiseEnd) = true) :
    runMain env args = .error (.attributeError "copy") := by
  by_cases h2 : args.type = "epochs"
  · simp only [runMain, covPhase, loadInputs, if_neg ht, if_pos h2, detectAndSegment,
      averageStep, noiseStep, hf, hbe, covStep, Bind.bind, Except.bind, pure, Except.pure,
      Bool.false_eq_true, if_false, if_true, reduceIte]
  · by_cases h3 : args.type = "evoked"
    · simp only [runMain, covPhase, loadInputs, if_neg ht, if_neg h2, if_pos h3,
        detectAndSegment, averageStep, noiseStep, hf, hbe, covStep, Bind.bind, Except.bind,
        pure, Except.pure, Bool.false_eq_true, if_false, if_true, reduceIte]
    · simp only [runMain, covPhase, loadInputs, if_neg ht, if_neg h2, if_neg h3,
        detectAndSegment, averageStep, noiseStep, hf, hbe, covStep, Bind.bind, Except.bind,
        pure, Except.pure, Bool.false_eq_true, if_false, if_true, reduceIte]

/-- Witness for c10_copy_none_raises: an epochs input with a nonzero noise
end bound and no noise file. -/
theorem c10_witness :
    (¬ argsC10w.type = "raw") ∧ pyStr argsC10w.noiseFile = false ∧
    (pyQ argsC10w.noiseBegin || pyQ argsC10w.noiseEnd) = true ∧
    runMain env0 argsC10w = .error (.attributeError "copy") :=
  ⟨by decide, rfl, rfl, c10_copy_none_raises env0 argsC10w (by decide) rfl rfl⟩

end EegDipole
